import Mathlib

/-!
Verification of the `useFormButton` hook of `formspree-js`
(`packages/formspree-react/src/useFormButton.ts`).

The hook performs two synchronous precondition checks on every render
(the global `formbutton` must be a function; `formActionEndpoint` must be
non-empty) and then binds a `useEffect` keyed by
`[formActionEndpoint, config]` that calls
`formbutton('create', { action, ...defaults, ...config })`.

JavaScript objects with optional keys are embedded as structures whose
fields are `Option`-valued: `none` models an absent key.  The JS spread
`{ ...base, ...override }` is `spreadConfig`: a key present in the
override wins, field by field (shallow).  React's dependency comparison
(`Object.is` per dependency) is embedded as value equality on the
endpoint string and identity of a `ConfigRef` (an object reference:
an identifier paired with the referenced value) for the config object.
-/

/-- The discriminated `type` of a `FormButtonField`
(`text|email|number|textarea|select|checkbox|radio|reset|submit|hidden`). -/
inductive FieldType where
  | text
  | email
  | number
  | textarea
  | selectField
  | checkbox
  | radio
  | resetField
  | submit
  | hidden
deriving DecidableEq, Repr

/-- A flat style map (`FormButtonStyle`): style-rule name to string value. -/
abbrev FormButtonStyle : Type := List (String × String)

/-- Per-field style (`FormFieldStyle`): optional `label` and `input` maps. -/
structure FormFieldStyle where
  label : Option FormButtonStyle
  input : Option FormButtonStyle
deriving DecidableEq

/-- One form field description (`FormButtonField`). -/
structure FormButtonField where
  type : FieldType
  label : Option String
  name : Option String
  required : Option Bool
  placeholder : Option String
  readonly : Option Bool
  disabled : Option Bool
  value : Option String
  style : Option FormFieldStyle
  className : Option String
deriving DecidableEq

/-- A `FormButtonField` with every optional key absent, used as a base for
concrete field literals. -/
def blankField (t : FieldType) : FormButtonField :=
  { type := t, label := none, name := none, required := none,
    placeholder := none, readonly := none, disabled := none,
    value := none, style := none, className := none }

/-- The per-region style maps (`FormButtonStyles`). -/
structure FormButtonStyles where
  button : Option FormButtonStyle
  iframe : Option FormButtonStyle
  shim : Option FormButtonStyle
  modalContainer : Option FormButtonStyle
  modal : Option FormButtonStyle
  title : Option FormButtonStyle
  description : Option FormButtonStyle
  body : Option FormButtonStyle
  formContainer : Option FormButtonStyle
  formStatus : Option FormButtonStyle
  form : Option FormButtonStyle
  label : Option FormButtonStyle
  input : Option FormButtonStyle
  fontFamily : Option String
deriving DecidableEq

/-- `FormButtonStyles` with every region absent. -/
def blankStyles : FormButtonStyles :=
  { button := none, iframe := none, shim := none, modalContainer := none,
    modal := none, title := none, description := none, body := none,
    formContainer := none, formStatus := none, form := none,
    label := none, input := none, fontFamily := none }

/-- The `FormButtonConfig` record.  Every key is `Option`-valued because the
hook receives a `Partial<FormButtonConfig>` and the dispatched object only
holds the keys that were actually written.  The three callback hooks are
modelled as opaque identifiers (`Nat`), since the layer only passes them
through and they are compared by reference. -/
structure FormButtonConfig where
  action : Option String
  title : Option String
  description : Option String
  theme : Option String
  buttonImg : Option String
  fields : Option (List FormButtonField)
  styles : Option FormButtonStyles
  initiallyVisible : Option Bool
  loadGoogleFonts : Option Bool
  stylesheet : Option String
  onSubmit : Option Nat
  onResponse : Option Nat
  onError : Option Nat
deriving DecidableEq

/-- The empty partial config `{}` (the hook's default for `config`). -/
def emptyFormButtonConfig : FormButtonConfig :=
  { action := none, title := none, description := none, theme := none,
    buttonImg := none, fields := none, styles := none,
    initiallyVisible := none, loadGoogleFonts := none, stylesheet := none,
    onSubmit := none, onResponse := none, onError := none }

/-- JS spread on one key: the key of the later (override) object wins when
present, otherwise the base object's key survives. -/
def jsOverride {α : Type} (ov base : Option α) : Option α :=
  match ov with
  | some v => some v
  | none => base

/-- The JS shallow one-level spread `{ ...base, ...ov }` on a
`FormButtonConfig`: every key is overridden wholesale when present in
`ov`; nested values (`fields`, `styles`) are never merged recursively. -/
def spreadConfig (base ov : FormButtonConfig) : FormButtonConfig :=
  { action := jsOverride ov.action base.action
    title := jsOverride ov.title base.title
    description := jsOverride ov.description base.description
    theme := jsOverride ov.theme base.theme
    buttonImg := jsOverride ov.buttonImg base.buttonImg
    fields := jsOverride ov.fields base.fields
    styles := jsOverride ov.styles base.styles
    initiallyVisible := jsOverride ov.initiallyVisible base.initiallyVisible
    loadGoogleFonts := jsOverride ov.loadGoogleFonts base.loadGoogleFonts
    stylesheet := jsOverride ov.stylesheet base.stylesheet
    onSubmit := jsOverride ov.onSubmit base.onSubmit
    onResponse := jsOverride ov.onResponse base.onResponse
    onError := jsOverride ov.onError base.onError }

/-- The default `fields` array written literally inside the effect of
`useFormButton`: a required email field, a message textarea, and a submit
control. -/
def defaultFields : List FormButtonField :=
  [ { blankField FieldType.email with
        label := some "Email:", name := some "email", required := some true,
        placeholder := some "yourbestemail@email.com" },
    { blankField FieldType.textarea with
        label := some "Message:", name := some "message",
        placeholder := some "What's on your mind?" },
    blankField FieldType.submit ]

/-- The default `styles` object written literally inside the effect:
gray title background and gray button background. -/
def defaultStyles : FormButtonStyles :=
  { blankStyles with
      title := some [("backgroundColor", "gray")],
      button := some [("backgroundColor", "gray")] }

/-- The object literal the effect builds before spreading `config` into
it: `{ action: formActionEndpoint, title, fields, styles,
initiallyVisible: false }` with the defaults from the source. -/
def effectBase (formActionEndpoint : String) : FormButtonConfig :=
  { emptyFormButtonConfig with
      action := some formActionEndpoint,
      title := some "How can I help?",
      fields := some defaultFields,
      styles := some defaultStyles,
      initiallyVisible := some false }

/-- The configuration object passed to `formbutton('create', ...)`:
the effect's literal with `...config` spread LAST, exactly as in the
source (`{ action: formActionEndpoint, ..., initiallyVisible: false,
...config }`). -/
def effectObject (formActionEndpoint : String) (config : FormButtonConfig) :
    FormButtonConfig :=
  spreadConfig (effectBase formActionEndpoint) config

/-- A thrown JS `Error`, identified by its message. -/
structure JsError where
  message : String
deriving DecidableEq

/-- The message of the error thrown when the global `formbutton` is not a
function (verbatim from the source). -/
def formbuttonNotDefinedMessage : String :=
  "formbutton is not defined. Please make sure to load the formbutton script at the end of the <body>...</body> section of your index.html file. See https://formspree.io/formbutton for more information."

/-- The message of the error thrown when `formActionEndpoint` is falsy
(verbatim from the source). -/
def endpointRequiredMessage : String :=
  "formActionEndpoint is required. Please provide the endpoint to send the form data to (e.g. https://formspree.io/f/xyz)"

/-- The state of the global `formbutton` binding: undefined, defined but
not callable, or a callable initializer.  A callable initializer receives
the intent tag and the config and may itself throw a `JsError`. -/
inductive Formbutton where
  | undefinedGlobal
  | notAFunction
  | fn (call : String → FormButtonConfig → Except JsError Unit)

/-- Embedding of `typeof formbutton === 'function'`. -/
def Formbutton.isFunction : Formbutton → Bool
  | .fn _ => true
  | _ => false

/-- A JS object reference to a partial config: an object identity `id`
together with the referenced value.  React compares the `config`
dependency with `Object.is`, i.e. by reference. -/
structure ConfigRef where
  id : Nat
  value : FormButtonConfig
deriving DecidableEq

/-- The per-hook-instance state React keeps across renders: the dependency
array stored by `useEffect` at its last run (absent before the first
mount), and, for observation, the log of external `formbutton` calls made
so far (intent, config). -/
structure HookState where
  prevDeps : Option (String × ConfigRef)
  calls : List (String × FormButtonConfig)
deriving DecidableEq

/-- State before the first render of a hook instance. -/
def initialHookState : HookState :=
  { prevDeps := none, calls := [] }

/-- The outcome of one render of the hook: the state afterwards and the
exception that escaped this render, if any. -/
structure StepResult where
  state : HookState
  thrown : Option JsError
deriving DecidableEq

/-- One render of `useFormButton fb formActionEndpoint config` from state
`st`, mirroring the source line by line:
the `typeof formbutton !== 'function'` check throws first, the
`!formActionEndpoint` check throws second (both run on every render,
before the effect), and the effect, keyed by
`[formActionEndpoint, config]`, re-runs exactly when those dependencies
differ from the previously stored ones (always on first mount), calling
`formbutton('create', effectObject ...)`.  A throw leaves the state
untouched except that a throw from the initializer happens after the
external call was already made. -/
def renderStep (fb : Formbutton) (formActionEndpoint : String)
    (config : ConfigRef) (st : HookState) : StepResult :=
  if fb.isFunction = false then
    { state := st, thrown := some { message := formbuttonNotDefinedMessage } }
  else if formActionEndpoint = "" then
    { state := st, thrown := some { message := endpointRequiredMessage } }
  else if st.prevDeps = some (formActionEndpoint, config) then
    { state := st, thrown := none }
  else
    match fb with
    | .fn call =>
        let cfg := effectObject formActionEndpoint config.value
        let st' : HookState :=
          { prevDeps := some (formActionEndpoint, config),
            calls := st.calls ++ [("create", cfg)] }
        match call "create" cfg with
        | .ok _ => { state := st', thrown := none }
        | .error e => { state := st', thrown := some e }
    | _ => { state := st, thrown := none }

/-- A `formbutton` implementation that always succeeds, for scenarios
where the external initializer does not throw. -/
def pureFormbuttonCall : String → FormButtonConfig → Except JsError Unit :=
  fun _ _ => Except.ok ()

/-- The always-succeeding global `formbutton`. -/
def pureFormbutton : Formbutton := Formbutton.fn pureFormbuttonCall

/-- Modelled from the spec: the dispatched configuration the spec claims,
`{..DefaultConfig, ..CallerOverrides, action: Endpoint}` — overrides
spread over the default fragment, then `action` set to the endpoint LAST
so that it would always equal the endpoint.  Used only to compare the
spec's merge order with the source's (`effectObject`). -/
def specDispatchedConfig (endpoint : String) (overrides : FormButtonConfig) :
    FormButtonConfig :=
  { spreadConfig
      { emptyFormButtonConfig with
          title := some "How can I help?",
          fields := some defaultFields,
          styles := some defaultStyles,
          initiallyVisible := some false }
      overrides
    with action := some endpoint }

/-- C2: whenever the global `formbutton` is absent or not callable, the
render throws the missing-runtime-capability error before any external
call (the state, including the call log, is untouched), and its message —
verbatim from the source — instructs the caller to load the formbutton
script and references the product documentation at
`https://formspree.io/formbutton`. -/
theorem missing_capability_throws (fb : Formbutton) (ep : String)
    (c : ConfigRef) (st : HookState) (h : fb.isFunction = false) :
    renderStep fb ep c st =
      { state := st,
        thrown := some { message := formbuttonNotDefinedMessage } } ∧
    formbuttonNotDefinedMessage =
      "formbutton is not defined. Please make sure to load the formbutton script at the end of the <body>...</body> section of your index.html file. See "
        ++ "https://formspree.io/formbutton" ++ " for more information." := by
  refine ⟨?_, rfl⟩
  simp [renderStep, h]

/-- Witness for `missing_capability_throws` at a concrete input: the
global is undefined, so the render throws and makes no call. -/
theorem missing_capability_throws_witness :
    renderStep Formbutton.undefinedGlobal "https://formspree.io/f/xyz"
        { id := 0, value := emptyFormButtonConfig } initialHookState =
      { state := initialHookState,
        thrown := some { message := formbuttonNotDefinedMessage } } ∧
    formbuttonNotDefinedMessage =
      "formbutton is not defined. Please make sure to load the formbutton script at the end of the <body>...</body> section of your index.html file. See "
        ++ "https://formspree.io/formbutton" ++ " for more information." :=
  missing_capability_throws Formbutton.undefinedGlobal
    "https://formspree.io/f/xyz" { id := 0, value := emptyFormButtonConfig }
    initialHookState rfl

/-- C3: with the capability present (a callable initializer) and an empty
endpoint, the render throws the invalid-argument error before any external
call (state and call log untouched), with the verbatim message asking the
caller to provide the submission endpoint. -/
theorem empty_endpoint_throws
    (call : String → FormButtonConfig → Except JsError Unit)
    (c : ConfigRef) (st : HookState) :
    renderStep (Formbutton.fn call) "" c st =
      { state := st, thrown := some { message := endpointRequiredMessage } } ∧
    endpointRequiredMessage =
      "formActionEndpoint is required. Please provide the endpoint to send the form data to (e.g. https://formspree.io/f/xyz)" := by
  refine ⟨?_, rfl⟩
  simp [renderStep, Formbutton.isFunction]

/-- C9: when the capability is absent AND the endpoint is empty, the
capability check fires first: the thrown error is the
missing-runtime-capability one and is not the invalid-argument one. -/
theorem capability_check_precedes_endpoint_check (fb : Formbutton)
    (c : ConfigRef) (st : HookState) (h : fb.isFunction = false) :
    (renderStep fb "" c st).thrown
        = some { message := formbuttonNotDefinedMessage } ∧
    (renderStep fb "" c st).thrown
        ≠ some { message := endpointRequiredMessage } := by
  have hr : renderStep fb "" c st =
      { state := st,
        thrown := some { message := formbuttonNotDefinedMessage } } := by
    simp [renderStep, h]
  rw [hr]
  refine ⟨rfl, ?_⟩
  show (some { message := formbuttonNotDefinedMessage } : Option JsError)
      ≠ some { message := endpointRequiredMessage }
  decide

/-- Witness for `capability_check_precedes_endpoint_check`: the global is
defined but not callable and the endpoint is empty. -/
theorem capability_check_precedes_endpoint_check_witness :
    (renderStep Formbutton.notAFunction ""
        { id := 0, value := emptyFormButtonConfig } initialHookState).thrown
        = some { message := formbuttonNotDefinedMessage } ∧
    (renderStep Formbutton.notAFunction ""
        { id := 0, value := emptyFormButtonConfig } initialHookState).thrown
        ≠ some { message := endpointRequiredMessage } :=
  capability_check_precedes_endpoint_check Formbutton.notAFunction
    { id := 0, value := emptyFormButtonConfig } initialHookState rfl

/-- C6: the precondition checks are not memoized.  After any first
invocation with a callable initializer (from any state), a later
invocation in which the capability has become unavailable still throws
the missing-runtime-capability error. -/
theorem checks_run_every_invocation
    (call : String → FormButtonConfig → Except JsError Unit)
    (ep1 : String) (c1 : ConfigRef) (st : HookState)
    (fb2 : Formbutton) (ep2 : String) (c2 : ConfigRef)
    (_hvalid : ep1 ≠ "") (h2 : fb2.isFunction = false) :
    (renderStep fb2 ep2 c2
        (renderStep (Formbutton.fn call) ep1 c1 st).state).thrown
      = some { message := formbuttonNotDefinedMessage } := by
  simp [renderStep, h2]

/-- Witness for `checks_run_every_invocation`: a successful mount, then
the global is deleted, and the second render throws. -/
theorem checks_run_every_invocation_witness :
    (renderStep Formbutton.undefinedGlobal "https://formspree.io/f/xyz"
        { id := 0, value := emptyFormButtonConfig }
        (renderStep (Formbutton.fn pureFormbuttonCall)
          "https://formspree.io/f/xyz"
          { id := 0, value := emptyFormButtonConfig }
          initialHookState).state).thrown
      = some { message := formbuttonNotDefinedMessage } :=
  checks_run_every_invocation pureFormbuttonCall "https://formspree.io/f/xyz"
    { id := 0, value := emptyFormButtonConfig } initialHookState
    Formbutton.undefinedGlobal "https://formspree.io/f/xyz"
    { id := 0, value := emptyFormButtonConfig } (by decide) rfl

/-- C7: for a non-throwing initializer, re-rendering with the dependency
pair unchanged (same endpoint string, same config reference) leaves the
call log untouched, while a render whose pair differs from the stored one
(including the first mount, where nothing is stored) appends exactly one
external call carrying the latest merged configuration. -/
theorem rerender_external_calls (ep : String) (c : ConfigRef)
    (st : HookState) (hep : ep ≠ "") :
    (st.prevDeps = some (ep, c) →
      renderStep pureFormbutton ep c st = { state := st, thrown := none }) ∧
    (st.prevDeps ≠ some (ep, c) →
      (renderStep pureFormbutton ep c st).state.calls
          = st.calls ++ [("create", effectObject ep c.value)] ∧
      (renderStep pureFormbutton ep c st).state.prevDeps = some (ep, c) ∧
      (renderStep pureFormbutton ep c st).thrown = none) := by
  constructor
  · intro hsame
    simp [renderStep, pureFormbutton, Formbutton.isFunction, hep, hsame,
      pureFormbuttonCall]
  · intro hdiff
    simp [renderStep, pureFormbutton, Formbutton.isFunction, hep, hdiff,
      pureFormbuttonCall]

/-- Witness for `rerender_external_calls`: the initial mount from the
fresh state appends exactly one call with the merged config. -/
theorem rerender_external_calls_witness :
    (renderStep pureFormbutton "https://formspree.io/f/endpoint1"
        { id := 3, value := emptyFormButtonConfig }
        initialHookState).state.calls
      = initialHookState.calls
          ++ [("create",
                effectObject "https://formspree.io/f/endpoint1"
                  emptyFormButtonConfig)] ∧
    (renderStep pureFormbutton "https://formspree.io/f/endpoint1"
        { id := 3, value := emptyFormButtonConfig }
        initialHookState).state.prevDeps
      = some ("https://formspree.io/f/endpoint1",
              { id := 3, value := emptyFormButtonConfig }) ∧
    (renderStep pureFormbutton "https://formspree.io/f/endpoint1"
        { id := 3, value := emptyFormButtonConfig }
        initialHookState).thrown = none :=
  (rerender_external_calls "https://formspree.io/f/endpoint1"
      { id := 3, value := emptyFormButtonConfig } initialHookState
      (by decide)).2 (by decide)

/-- C8: on a render that reaches the external call, whatever the
initializer returns is surfaced unchanged: an exception `e` thrown by the
initializer escapes as exactly `e` (no wrapping, translation, or retry),
and a successful call throws nothing. -/
theorem initializer_error_propagates
    (call : String → FormButtonConfig → Except JsError Unit)
    (ep : String) (c : ConfigRef) (st : HookState)
    (hep : ep ≠ "") (hdeps : st.prevDeps ≠ some (ep, c)) :
    (∀ e : JsError, call "create" (effectObject ep c.value) = Except.error e →
        (renderStep (Formbutton.fn call) ep c st).thrown = some e) ∧
    (∀ u : Unit, call "create" (effectObject ep c.value) = Except.ok u →
        (renderStep (Formbutton.fn call) ep c st).thrown = none) := by
  constructor
  · intro e he
    simp [renderStep, Formbutton.isFunction, hep, hdeps, he]
  · intro u hu
    simp [renderStep, Formbutton.isFunction, hep, hdeps, hu]

/-- An initializer that always throws, for the witness below. -/
def throwingCall : String → FormButtonConfig → Except JsError Unit :=
  fun _ _ => Except.error { message := "widget exploded" }

/-- Witness for `initializer_error_propagates`: a throwing initializer's
error escapes the render verbatim. -/
theorem initializer_error_propagates_witness :
    (renderStep (Formbutton.fn throwingCall) "https://formspree.io/f/cb"
        { id := 7, value := emptyFormButtonConfig }
        initialHookState).thrown
      = some { message := "widget exploded" } :=
  (initializer_error_propagates throwingCall "https://formspree.io/f/cb"
      { id := 7, value := emptyFormButtonConfig } initialHookState
      (by decide) (by decide)).1 { message := "widget exploded" } rfl

/-- C1 counterexample: with overrides `{action: "https://example.com/other"}`
and endpoint `"https://formspree.io/f/xyz"`, the single dispatched call
carries the OVERRIDE's action, not the endpoint, because the source
spreads `...config` after `action: formActionEndpoint`; the dispatched
object therefore differs from the spec's claimed merge
`{..DefaultConfig, ..overrides, action: endpoint}`. -/
theorem dispatched_action_counterexample :
    ((renderStep pureFormbutton "https://formspree.io/f/xyz"
        { id := 0,
          value := { emptyFormButtonConfig with
                       action := some "https://example.com/other" } }
        initialHookState).state.calls.map (fun p => p.2.action))
      = [some "https://example.com/other"] ∧
    some "https://example.com/other" ≠ some "https://formspree.io/f/xyz" ∧
    effectObject "https://formspree.io/f/xyz"
        { emptyFormButtonConfig with
            action := some "https://example.com/other" }
      ≠ specDispatchedConfig "https://formspree.io/f/xyz"
          { emptyFormButtonConfig with
              action := some "https://example.com/other" } := by
  refine ⟨?_, by decide, by decide⟩
  rfl

/-- C1 amended: the dispatched configuration is the shallow merge
`{action: endpoint, ..DefaultConfig, ..overrides}` with the overrides
spread LAST: each valid render that runs the effect appends exactly one
call whose config is that merge, whose `action` equals the endpoint
exactly when the overrides omit `action`, and equals the overrides'
`action` whenever they provide one. -/
theorem dispatched_config_merge (ep : String) (c : ConfigRef)
    (st : HookState) (hep : ep ≠ "") (hdeps : st.prevDeps ≠ some (ep, c)) :
    (renderStep pureFormbutton ep c st).state.calls
        = st.calls ++ [("create", spreadConfig (effectBase ep) c.value)] ∧
    (c.value.action = none →
        (spreadConfig (effectBase ep) c.value).action = some ep) ∧
    (∀ a : String, c.value.action = some a →
        (spreadConfig (effectBase ep) c.value).action = some a) := by
  refine ⟨?_, ?_, ?_⟩
  · simp [renderStep, pureFormbutton, Formbutton.isFunction, hep, hdeps,
      pureFormbuttonCall, effectObject]
  · intro h
    simp [spreadConfig, jsOverride, h, effectBase, emptyFormButtonConfig]
  · intro a h
    simp [spreadConfig, jsOverride, h]

/-- Witness for `dispatched_config_merge`: a mount with an
action-carrying override records exactly the merged call. -/
theorem dispatched_config_merge_witness :
    (renderStep pureFormbutton "https://formspree.io/f/test"
        { id := 1,
          value := { emptyFormButtonConfig with
                       action := some "https://example.com/other" } }
        initialHookState).state.calls
      = initialHookState.calls
          ++ [("create",
                spreadConfig (effectBase "https://formspree.io/f/test")
                  { emptyFormButtonConfig with
                      action := some "https://example.com/other" })] :=
  (dispatched_config_merge "https://formspree.io/f/test"
      { id := 1,
        value := { emptyFormButtonConfig with
                     action := some "https://example.com/other" } }
      initialHookState (by decide) (by decide)).1

/-- C4: the merge is shallow.  Overriding only `title` leaves the
dispatched `fields` and `styles` exactly the defaults; and any overrides
that carry a `fields` array make the dispatched `fields` exactly that
array, with the default fields fully discarded (never concatenated or
merged element-wise). -/
theorem shallow_merge (ep : String) :
    (∀ t : String,
      (effectObject ep { emptyFormButtonConfig with title := some t }).fields
          = some defaultFields ∧
      (effectObject ep { emptyFormButtonConfig with title := some t }).styles
          = some defaultStyles) ∧
    (∀ (ov : FormButtonConfig) (fs : List FormButtonField),
      ov.fields = some fs → (effectObject ep ov).fields = some fs) := by
  constructor
  · intro t
    exact ⟨rfl, rfl⟩
  · intro ov fs h
    simp [effectObject, spreadConfig, jsOverride, h]

/-- A caller-supplied fields array used by the witness below (from the
repository's test for custom configuration). -/
def customFieldsExample : List FormButtonField :=
  [ { blankField FieldType.text with
        label := some "Name:", name := some "name", required := some true },
    blankField FieldType.submit ]

/-- Witness for `shallow_merge`: a title-only override keeps the default
fields, and a fields override replaces them wholesale. -/
theorem shallow_merge_witness :
    (effectObject "https://formspree.io/f/merge789"
        { emptyFormButtonConfig with title := some "Custom Title" }).fields
      = some defaultFields ∧
    (effectObject "https://formspree.io/f/merge789"
        { emptyFormButtonConfig with
            fields := some customFieldsExample }).fields
      = some customFieldsExample :=
  ⟨((shallow_merge "https://formspree.io/f/merge789").1 "Custom Title").1,
   (shallow_merge "https://formspree.io/f/merge789").2
     { emptyFormButtonConfig with fields := some customFieldsExample }
     customFieldsExample rfl⟩

/-- C5: a first render with no overrides makes exactly one external call,
with intent `"create"` and the full default configuration written out
literally: title "How can I help?", the required email field, the message
textarea, the submit control, gray title and button backgrounds,
`initiallyVisible = false`, and `action` equal to the endpoint. -/
theorem dispatch_default_config (ep : String) (i : Nat) (hep : ep ≠ "") :
    renderStep pureFormbutton ep { id := i, value := emptyFormButtonConfig }
        initialHookState
      = { state :=
            { prevDeps :=
                some (ep, { id := i, value := emptyFormButtonConfig }),
              calls :=
                [("create",
                  { action := some ep,
                    title := some "How can I help?",
                    description := none, theme := none, buttonImg := none,
                    fields := some
                      [ { type := FieldType.email, label := some "Email:",
                          name := some "email", required := some true,
                          placeholder := some "yourbestemail@email.com",
                          readonly := none, disabled := none, value := none,
                          style := none, className := none },
                        { type := FieldType.textarea,
                          label := some "Message:", name := some "message",
                          required := none,
                          placeholder := some "What's on your mind?",
                          readonly := none, disabled := none, value := none,
                          style := none, className := none },
                        { type := FieldType.submit, label := none,
                          name := none, required := none, placeholder := none,
                          readonly := none, disabled := none, value := none,
                          style := none, className := none } ],
                    styles := some
                      { button := some [("backgroundColor", "gray")],
                        iframe := none, shim := none, modalContainer := none,
                        modal := none,
                        title := some [("backgroundColor", "gray")],
                        description := none, body := none,
                        formContainer := none, formStatus := none,
                        form := none, label := none, input := none,
                        fontFamily := none },
                    initiallyVisible := some false,
                    loadGoogleFonts := none, stylesheet := none,
                    onSubmit := none, onResponse := none, onError := none })] },
          thrown := none } := by
  have hstep : renderStep pureFormbutton ep
      { id := i, value := emptyFormButtonConfig } initialHookState
      = { state :=
            { prevDeps :=
                some (ep, { id := i, value := emptyFormButtonConfig }),
              calls := [("create", effectObject ep emptyFormButtonConfig)] },
          thrown := none } := by
    simp [renderStep, pureFormbutton, Formbutton.isFunction, hep,
      pureFormbuttonCall, initialHookState]
  rw [hstep]
  rfl

/-- Witness for `dispatch_default_config` at the endpoint of the
repository's default-configuration test. -/
theorem dispatch_default_config_witness :
    renderStep pureFormbutton "https://formspree.io/f/test123"
        { id := 0, value := emptyFormButtonConfig } initialHookState
      = { state :=
            { prevDeps :=
                some ("https://formspree.io/f/test123",
                      { id := 0, value := emptyFormButtonConfig }),
              calls :=
                [("create",
                  { action := some "https://formspree.io/f/test123",
                    title := some "How can I help?",
                    description := none, theme := none, buttonImg := none,
                    fields := some
                      [ { type := FieldType.email, label := some "Email:",
                          name := some "email", required := some true,
                          placeholder := some "yourbestemail@email.com",
                          readonly := none, disabled := none, value := none,
                          style := none, className := none },
                        { type := FieldType.textarea,
                          label := some "Message:", name := some "message",
                          required := none,
                          placeholder := some "What's on your mind?",
                          readonly := none, disabled := none, value := none,
                          style := none, className := none },
                        { type := FieldType.submit, label := none,
                          name := none, required := none, placeholder := none,
                          readonly := none, disabled := none, value := none,
                          style := none, className := none } ],
                    styles := some
                      { button := some [("backgroundColor", "gray")],
                        iframe := none, shim := none, modalContainer := none,
                        modal := none,
                        title := some [("backgroundColor", "gray")],
                        description := none, body := none,
                        formContainer := none, formStatus := none,
                        form := none, label := none, input := none,
                        fontFamily := none },
                    initiallyVisible := some false,
                    loadGoogleFonts := none, stylesheet := none,
                    onSubmit := none, onResponse := none, onError := none })] },
          thrown := none } :=
  dispatch_default_config "https://formspree.io/f/test123" 0 (by decide)

/-- C10: with no overrides the dispatched configuration holds exactly the
five keys the effect literal writes — `action` (the endpoint), `title`,
`fields`, `styles`, `initiallyVisible` — while `description`, `theme`,
`buttonImg`, `loadGoogleFonts`, `stylesheet` and the three callbacks stay
absent: the documented type-level defaults are not materialized by this
layer. -/
theorem no_documented_defaults_materialized (ep : String) :
    (effectObject ep emptyFormButtonConfig).description = none ∧
    (effectObject ep emptyFormButtonConfig).theme = none ∧
    (effectObject ep emptyFormButtonConfig).buttonImg = none ∧
    (effectObject ep emptyFormButtonConfig).loadGoogleFonts = none ∧
    (effectObject ep emptyFormButtonConfig).stylesheet = none ∧
    (effectObject ep emptyFormButtonConfig).onSubmit = none ∧
    (effectObject ep emptyFormButtonConfig).onResponse = none ∧
    (effectObject ep emptyFormButtonConfig).onError = none ∧
    (effectObject ep emptyFormButtonConfig).action = some ep ∧
    (effectObject ep emptyFormButtonConfig).title = some "How can I help?" ∧
    (effectObject ep emptyFormButtonConfig).fields = some defaultFields ∧
    (effectObject ep emptyFormButtonConfig).styles = some defaultStyles ∧
    (effectObject ep emptyFormButtonConfig).initiallyVisible = some false :=
  ⟨rfl, rfl, rfl, rfl, rfl, rfl, rfl, rfl, rfl, rfl, rfl, rfl, rfl⟩
